import Mathlib

/-!
# Nodal — verification of the core decision engine

Shallow embedding of the core of the Nodal repository:

* `src/core/optimizer.py` — `NodalOptimizer`: cost model (`calculate_van_cost`,
  `calculate_fuel_per_mile`), route-mileage heuristic
  (`calculate_human_route_miles`), the congestion-zone test (`is_london`) and
  the greedy capacity-constrained order selector
  (`select_best_regional_orders`).
* `src/core/routing_engine.py` — `NodalRouter`: per-postcode route-data
  provider with an in-memory cache and a hard daily call quota
  (`get_route_data`).

Currency, volume, weight and distance are modelled as exact rationals (`ℚ`);
Python's `round(x, 2)` is modelled as round-half-to-even at two decimal
places (`round2`).  Python strings are modelled as `List Char`, so that
`upper`/`strip`/prefix tests are structurally computable.  The external
Google-Maps backend is modelled as an oracle `Str → Option BackendElem`;
`none` covers transport exceptions, non-`OK` statuses and malformed
responses, all of which `get_route_data` maps to the same absent result.
-/

namespace Nodal

/-- Python strings, modelled as lists of characters. -/
abbrev Str := List Char

/-- Python's `str.upper()`. -/
def upperStr (s : Str) : Str := s.map Char.toUpper

/-- Python's `str.strip()`: drop whitespace from both ends. -/
def stripStr (s : Str) : Str :=
  ((s.dropWhile Char.isWhitespace).reverse.dropWhile Char.isWhitespace).reverse

/-- The normalization `str(x).upper().strip()` used both by
`routing_engine.get_route_data` (the cache key) and `optimizer.is_london`. -/
def normalizePostcode (s : Str) : Str := stripStr (upperStr s)

/-- Python's `round(x, 2)`: round to the nearest multiple of 1/100,
ties to the even multiple (banker's rounding). -/
def round2 (q : ℚ) : ℚ :=
  let y : ℚ := q * 100
  let n : ℤ := ⌊y⌋
  let m : ℤ :=
    if y - n < 1/2 then n
    else if 1/2 < y - n then n + 1
    else if n % 2 = 0 then n else n + 1
  (m : ℚ) / 100

/-! ## `src/core/optimizer.py` -/

/-- One routed order row as consumed by `select_best_regional_orders`:
the columns of the regional DataFrame that the optimizer reads
(`courier_cost_gbp`, `postcode`, `volume_m3`, `weight_kg`,
`distance_miles`), plus the identifier.  A row only reaches the selector
after `core.py` has dropped rows with unresolved routing data, so
`distance_miles` is always present here (the RoutedOrder state of the
spec). -/
structure Order where
  order_id : Str
  courier_cost_gbp : ℚ
  postcode : Str
  volume_m3 : ℚ
  weight_kg : ℚ
  distance_miles : ℚ
  deriving DecidableEq, Repr

/-- The `NodalOptimizer` object state: the attributes set by
`NodalOptimizer.__init__` (all mutable Python attributes become fields). -/
structure NodalOptimizer where
  raw_max_m3 : ℚ
  van_capacity_kg : ℚ
  van_capacity_m3 : ℚ
  DRIVER_DAILY_RATE : ℚ
  VEHICLE_INSURANCE_DAILY : ℚ
  MAINTENANCE_BUFFER : ℚ
  LONDON_SURCHARGE : ℚ
  SAFETY_MARGIN : ℚ
  current_diesel_price : ℚ
  VAN_MPG : ℚ
  FUEL_COST_PER_MILE : ℚ
  deriving DecidableEq, Repr

/-- Method `calculate_fuel_per_mile`:
`self.FUEL_COST_PER_MILE = (self.current_diesel_price * 4.546) / self.VAN_MPG`. -/
def calculate_fuel_per_mile (o : NodalOptimizer) : NodalOptimizer :=
  { o with FUEL_COST_PER_MILE := o.current_diesel_price * 4.546 / o.VAN_MPG }

/-- Constructor `NodalOptimizer.__init__(van_capacity_m3=12.0, van_capacity_kg=1500.0)`
(the Python defaults are 12 and 1500; callers here pass them explicitly).
The utilization constant 0.80 (`self.UTILIZATION_RATIO`) is inlined. -/
def NodalOptimizer.init (van_capacity_m3 : ℚ) (van_capacity_kg : ℚ) :
    NodalOptimizer :=
  calculate_fuel_per_mile
    { raw_max_m3 := van_capacity_m3
      van_capacity_kg := van_capacity_kg
      van_capacity_m3 := van_capacity_m3 * 0.80
      DRIVER_DAILY_RATE := 140
      VEHICLE_INSURANCE_DAILY := 15
      MAINTENANCE_BUFFER := 10
      LONDON_SURCHARGE := 15
      SAFETY_MARGIN := 1.10
      current_diesel_price := 1.45
      VAN_MPG := 30
      -- placeholder, immediately overwritten by `calculate_fuel_per_mile`,
      -- exactly as `__init__` calls `self.calculate_fuel_per_mile()` last
      FUEL_COST_PER_MILE := 0 }

/-- The fixed congestion-zone tuple of `is_london`. -/
def londonZones : List Str :=
  ["EC".toList, "WC".toList, "E1".toList, "N1".toList,
   "NW1".toList, "SE1".toList, "SW1".toList, "W1".toList]

/-- Method `is_london(postcode)`: uppercase, strip, then prefix-match against the
fixed congestion-zone tuple.  (The `pd.isna` guard concerns missing cells;
postcodes are plain strings here.) -/
def is_london (postcode : Str) : Bool :=
  let pc := normalizePostcode postcode
  londonZones.any (fun z => z.isPrefixOf pc)

/-- Method `calculate_human_route_miles(dist_to_region, num_stops)`:
`round(dist_to_region * 2 + num_stops * 1.2, 2)`. -/
def calculate_human_route_miles (dist_to_region : ℚ) (num_stops : ℕ) : ℚ :=
  round2 (dist_to_region * 2 + (num_stops : ℚ) * 1.2)

/-- Method `calculate_van_cost(total_miles, has_london_stop)`. -/
def calculate_van_cost (o : NodalOptimizer) (total_miles : ℚ) (has_london_stop : Bool) : ℚ :=
  let fixed := o.DRIVER_DAILY_RATE + o.VEHICLE_INSURANCE_DAILY + o.MAINTENANCE_BUFFER
  let fuel := total_miles * o.FUEL_COST_PER_MILE
  let total := fixed + fuel
  let total := if has_london_stop then total + o.LONDON_SURCHARGE else total
  total * o.SAFETY_MARGIN

/-- Stable descending insertion by `courier_cost_gbp`: an element moves in
front of exactly the strictly cheaper ones, so equal costs keep their
relative order.  (Models `df.sort_values(by='courier_cost_gbp',
ascending=False)` as a deterministic descending sort; whether the pandas
default sort kind is stable is settled separately, with the
selection-stability claim.) -/
def insertDesc (o : Order) : List Order → List Order
  | [] => [o]
  | x :: xs =>
    if x.courier_cost_gbp < o.courier_cost_gbp then o :: x :: xs
    else x :: insertDesc o xs

/-- Descending sort by `courier_cost_gbp`. -/
def sortByCourierDesc (df : List Order) : List Order :=
  df.foldr insertDesc []

/-- The selection loop of `select_best_regional_orders`: iterate over the
sorted rows, admit a row exactly when both running totals stay within the
capacities after admission. -/
def greedyAdmit (cap_m3 cap_kg : ℚ) : List Order → ℚ → ℚ → List Order
  | [], _, _ => []
  | o :: rest, curr_vol, curr_kg =>
    if curr_vol + o.volume_m3 ≤ cap_m3 ∧ curr_kg + o.weight_kg ≤ cap_kg then
      o :: greedyAdmit cap_m3 cap_kg rest (curr_vol + o.volume_m3) (curr_kg + o.weight_kg)
    else
      greedyAdmit cap_m3 cap_kg rest curr_vol curr_kg

/-- The anchor distance `df['distance_miles'].max()` on a DataFrame that is non-empty at the
point of use (the empty case is returned early by the caller). -/
def maxDistance : List Order → ℚ
  | [] => 0
  | o :: rest => rest.foldl (fun m r => max m r.distance_miles) o.distance_miles

/-- Sum of `courier_cost_gbp` over a list of rows
(`result_df['courier_cost_gbp'].sum()`). -/
def sumCourier (l : List Order) : ℚ :=
  (l.map Order.courier_cost_gbp).sum

/-- Sum of `volume_m3` over a list of rows. -/
def sumVolumes (l : List Order) : ℚ :=
  (l.map Order.volume_m3).sum

/-- Sum of `weight_kg` over a list of rows. -/
def sumWeights (l : List Order) : ℚ :=
  (l.map Order.weight_kg).sum

/-- The value returned by `select_best_regional_orders`: the selected rows,
and — when a non-empty selection passed the profitability gate — the single
`final_route_miles` value written onto every selected row.  An empty
DataFrame is `⟨[], none⟩`. -/
structure SelectionResult where
  selected : List Order
  final_route_miles : Option ℚ
  deriving DecidableEq, Repr

/-- Method `select_best_regional_orders(df)`: sort descending by courier cost,
greedily fill the van under both capacity limits, anchor the route to the
maximum `distance_miles` of the *original* frame, price the route, and
discard everything when the van cost exceeds the courier savings. -/
def select_best_regional_orders (opt : NodalOptimizer) (df : List Order) :
    SelectionResult :=
  if df = [] then ⟨[], none⟩
  else
    let df_sorted := sortByCourierDesc df
    let selected := greedyAdmit opt.van_capacity_m3 opt.van_capacity_kg df_sorted 0 0
    let dist_to_region := maxDistance df
    if selected = [] then ⟨[], none⟩
    else
      let total_route_miles := calculate_human_route_miles dist_to_region selected.length
      let savings := sumCourier selected
      let has_london := selected.any (fun o => is_london o.postcode)
      let cost := calculate_van_cost opt total_route_miles has_london
      if savings < cost then ⟨[], none⟩
      else ⟨selected, some total_route_miles⟩

/-! ## `src/core/routing_engine.py` -/

/-- The route record built from a successful backend response and stored in
the cache: `{'distance_miles': ..., 'duration_min': ...}`. -/
structure RouteInfo where
  distance_miles : ℚ
  duration_min : ℚ
  deriving DecidableEq, Repr

/-- A successful (`status == 'OK'` at both levels) distance-matrix element:
the linear distance in meters and the duration fields in seconds, with
`duration_in_traffic` optional exactly as in the API
(`element.get('duration_in_traffic', element['duration'])`). -/
structure BackendElem where
  dist_meters : ℚ
  duration_in_traffic_sec : Option ℚ
  duration_sec : ℚ

/-- The external Google-Maps distance-matrix backend, as an oracle from the
normalized destination postcode.  `none` covers a raised exception, a
non-`OK` status at either level, and any malformed response — every path
that `get_route_data` answers with `None`. -/
def Backend := Str → Option BackendElem

/-- The `NodalRouter` object state set by `NodalRouter.__init__`
(the api key only parameterizes the external client and is not modelled). -/
structure NodalRouter where
  warehouse_postcode : Str
  route_cache : List (Str × RouteInfo)
  daily_request_count : ℕ
  MAX_DAILY_LIMIT : ℕ
  deriving DecidableEq, Repr

/-- Constructor `NodalRouter.__init__(api_key)`. -/
def NodalRouter.init : NodalRouter :=
  { warehouse_postcode := "NN15 6NL".toList
    route_cache := []
    daily_request_count := 0
    MAX_DAILY_LIMIT := 3000 }

/-- Python dict lookup `pc_key in self.route_cache` / `self.route_cache[pc_key]`. -/
def cacheLookup (k : Str) : List (Str × RouteInfo) → Option RouteInfo
  | [] => none
  | (k', v) :: rest => if k' = k then some v else cacheLookup k rest

/-- Method `get_route_data(destination_postcode)`: falsy-postcode guard, cache
check, quota check, then one backend call whose result is converted
(meters → miles, seconds → minutes, both rounded to 2 places) and cached on
success.  Returns the result together with the updated router state. -/
def get_route_data (bk : Backend) (r : NodalRouter) :
    Option Str → Option RouteInfo × NodalRouter
  | none => (none, r)
  | some dest =>
    -- `if not destination_postcode: return None` (empty string is falsy)
    if dest = [] then (none, r)
    else
      let pc_key := normalizePostcode dest
      match cacheLookup pc_key r.route_cache with
      | some cached => (some cached, r)
      | none =>
        if r.MAX_DAILY_LIMIT ≤ r.daily_request_count then (none, r)
        else
          -- `self.daily_request_count += 1` precedes the API call, so the
          -- counter moves on every attempt, successful or not
          let r' := { r with daily_request_count := r.daily_request_count + 1 }
          match bk pc_key with
          | none => (none, r')
          | some e =>
            let route_info : RouteInfo :=
              { distance_miles := round2 (e.dist_meters * 0.000621371)
                duration_min := round2 ((e.duration_in_traffic_sec.getD e.duration_sec) / 60) }
            (some route_info, { r' with route_cache := (pc_key, route_info) :: r'.route_cache })

/-- Run a sequence of `get_route_data` calls, threading the router state. -/
def runCalls (bk : Backend) (r : NodalRouter) (calls : List (Option Str)) : NodalRouter :=
  calls.foldl (fun st pc => (get_route_data bk st pc).2) r

/-! ## Concrete fixtures used to exercise the definitions -/

/-- A routed order with a high courier cost, 10 miles from the depot. -/
def ordA : Order :=
  { order_id := ['1'], courier_cost_gbp := 1000,
    postcode := ['N', 'N', '1', '4', ' ', '1', 'A', 'A'],
    volume_m3 := 1, weight_kg := 10, distance_miles := 10 }

/-- A routed order whose `distance_miles` has three decimal places, so the
exact mileage formula and its 2-decimal rounding disagree. -/
def ordTiny : Order :=
  { order_id := ['2'], courier_cost_gbp := 1000,
    postcode := ['N', 'N', '1', '4', ' ', '1', 'A', 'A'],
    volume_m3 := 1, weight_kg := 10, distance_miles := 0.001 }

/-- The optimizer built with the constructor defaults. -/
def optDefault : NodalOptimizer := NodalOptimizer.init 12 1500

/-- A backend oracle that answers one postcode and errors on the rest. -/
def bkA : Backend := fun pc =>
  if pc = ['A', 'B', '1', ' ', '2', 'C', 'D'] then
    some { dist_meters := 100000, duration_in_traffic_sec := some 600, duration_sec := 500 }
  else none

/-- The route record `bkA` produces: `round(100000 * 0.000621371, 2)` miles
and `round(600 / 60, 2)` minutes. -/
def infoA : RouteInfo := { distance_miles := 62.14, duration_min := 10 }

/-- The router state after `bkA` has answered `'AB1 2CD'` once from a fresh
`NodalRouter.init` state. -/
def routerAfterA : NodalRouter :=
  { warehouse_postcode := "NN15 6NL".toList
    route_cache := [(['A', 'B', '1', ' ', '2', 'C', 'D'], infoA)]
    daily_request_count := 1
    MAX_DAILY_LIMIT := 3000 }

/-- A backend oracle that always fails. -/
def bkNone : Backend := fun _ => none

/-- A router whose quota is exhausted (counter at the limit) with one
cached postcode. -/
def routerFull : NodalRouter :=
  { warehouse_postcode := "NN15 6NL".toList
    route_cache := [(['A', 'B'], infoA)]
    daily_request_count := 2
    MAX_DAILY_LIMIT := 2 }

/-! ## Supporting lemmas -/

theorem insertDesc_perm (a : Order) (l : List Order) :
    (insertDesc a l).Perm (a :: l) := by
  induction l with
  | nil => exact List.Perm.refl _
  | cons x xs ih =>
    rw [insertDesc]
    split
    · exact List.Perm.refl _
    · exact (ih.cons x).trans (List.Perm.swap a x xs)

theorem sortByCourierDesc_perm (df : List Order) :
    (sortByCourierDesc df).Perm df := by
  induction df with
  | nil => exact List.Perm.refl _
  | cons x xs ih => exact (insertDesc_perm x _).trans (ih.cons x)

theorem greedyAdmit_le (cap_m3 cap_kg : ℚ) (l : List Order) :
    ∀ cv ck : ℚ, cv ≤ cap_m3 → ck ≤ cap_kg →
      cv + sumVolumes (greedyAdmit cap_m3 cap_kg l cv ck) ≤ cap_m3 ∧
      ck + sumWeights (greedyAdmit cap_m3 cap_kg l cv ck) ≤ cap_kg := by
  induction l with
  | nil =>
    intro cv ck hv hk
    simp only [greedyAdmit, sumVolumes, sumWeights, List.map_nil, List.sum_nil, add_zero]
    exact ⟨hv, hk⟩
  | cons o rest ih =>
    intro cv ck hv hk
    by_cases hc : cv + o.volume_m3 ≤ cap_m3 ∧ ck + o.weight_kg ≤ cap_kg
    · have h2 := ih (cv + o.volume_m3) (ck + o.weight_kg) hc.1 hc.2
      simp only [greedyAdmit, if_pos hc, sumVolumes, sumWeights, List.map_cons,
        List.sum_cons] at h2 ⊢
      exact ⟨by linarith [h2.1], by linarith [h2.2]⟩
    · simp only [greedyAdmit, if_neg hc]
      exact ih cv ck hv hk

theorem greedyAdmit_subset (cap_m3 cap_kg : ℚ) (l : List Order) :
    ∀ (cv ck : ℚ) (o : Order), o ∈ greedyAdmit cap_m3 cap_kg l cv ck → o ∈ l := by
  induction l with
  | nil => intro cv ck o h; simp [greedyAdmit] at h
  | cons x rest ih =>
    intro cv ck o h
    by_cases hc : cv + x.volume_m3 ≤ cap_m3 ∧ ck + x.weight_kg ≤ cap_kg
    · rw [greedyAdmit, if_pos hc] at h
      rcases List.mem_cons.mp h with h | h
      · exact h ▸ List.mem_cons_self x rest
      · exact List.mem_cons_of_mem x (ih _ _ o h)
    · rw [greedyAdmit, if_neg hc] at h
      exact List.mem_cons_of_mem x (ih _ _ o h)

/-- The selected field of a selection result is either empty or exactly the
greedy pass over the sorted candidates — the selector never returns a
partial subset of what the greedy pass admitted. -/
theorem select_selected_eq (opt : NodalOptimizer) (df : List Order) :
    (select_best_regional_orders opt df).selected = [] ∨
    (select_best_regional_orders opt df).selected =
      greedyAdmit opt.van_capacity_m3 opt.van_capacity_kg (sortByCourierDesc df) 0 0 := by
  simp only [select_best_regional_orders]
  split
  · exact Or.inl rfl
  · split
    · exact Or.inl rfl
    · split
      · exact Or.inl rfl
      · exact Or.inr rfl

/-! ## Claim theorems: the optimizer -/

/-- C1.  Capacity invariant of `select_best_regional_orders`: for every
candidate list and every non-negative capacity budget, the admitted rows'
volumes and weights sum within `van_capacity_m3` and `van_capacity_kg`
(the greedy loop admits a row exactly when both cumulative totals stay
within budget), and every admitted row is one of the candidate rows — i.e.
a RoutedOrder carrying its route data. -/
theorem select_capacity_invariant (opt : NodalOptimizer) (df : List Order)
    (hv : 0 ≤ opt.van_capacity_m3) (hw : 0 ≤ opt.van_capacity_kg) :
    sumVolumes (select_best_regional_orders opt df).selected ≤ opt.van_capacity_m3 ∧
    sumWeights (select_best_regional_orders opt df).selected ≤ opt.van_capacity_kg ∧
    ∀ o ∈ (select_best_regional_orders opt df).selected, o ∈ df := by
  rcases select_selected_eq opt df with h | h <;> rw [h]
  · refine ⟨?_, ?_, by simp⟩ <;>
      simp only [sumVolumes, sumWeights, List.map_nil, List.sum_nil] <;> assumption
  · have h1 := greedyAdmit_le opt.van_capacity_m3 opt.van_capacity_kg
      (sortByCourierDesc df) 0 0 hv hw
    refine ⟨by linarith [h1.1], by linarith [h1.2], ?_⟩
    intro o ho
    exact (sortByCourierDesc_perm df).subset
      (greedyAdmit_subset opt.van_capacity_m3 opt.van_capacity_kg _ 0 0 o ho)

/-- Witness for C1 at the default capacities and a concrete one-order list. -/
theorem select_capacity_invariant_witness :
    (0 ≤ optDefault.van_capacity_m3 ∧ 0 ≤ optDefault.van_capacity_kg) ∧
    (sumVolumes (select_best_regional_orders optDefault [ordA]).selected ≤
        optDefault.van_capacity_m3 ∧
      sumWeights (select_best_regional_orders optDefault [ordA]).selected ≤
        optDefault.van_capacity_kg ∧
      ∀ o ∈ (select_best_regional_orders optDefault [ordA]).selected, o ∈ [ordA]) := by
  have h1 : (0 : ℚ) ≤ optDefault.van_capacity_m3 := by
    norm_num [optDefault, NodalOptimizer.init, calculate_fuel_per_mile]
  have h2 : (0 : ℚ) ≤ optDefault.van_capacity_kg := by
    norm_num [optDefault, NodalOptimizer.init, calculate_fuel_per_mile]
  exact ⟨⟨h1, h2⟩, select_capacity_invariant optDefault [ordA] h1 h2⟩

/-- C2.  The profitability gate is exact and all-or-nothing: a non-empty
selection implies the van cost computed from the stored route miles and the
admitted rows' congestion flag is at most the admitted rows' courier-cost
sum; and the selected list is always either empty or exactly the full
greedy admission — never a partial acceptance. -/
theorem select_profitability_gate (opt : NodalOptimizer) (df : List Order) :
    ((select_best_regional_orders opt df).selected ≠ [] →
      calculate_van_cost opt
          (calculate_human_route_miles (maxDistance df)
            (select_best_regional_orders opt df).selected.length)
          ((select_best_regional_orders opt df).selected.any fun o => is_london o.postcode) ≤
        sumCourier (select_best_regional_orders opt df).selected) ∧
    ((select_best_regional_orders opt df).selected = [] ∨
      (select_best_regional_orders opt df).selected =
        greedyAdmit opt.van_capacity_m3 opt.van_capacity_kg (sortByCourierDesc df) 0 0) := by
  refine ⟨?_, select_selected_eq opt df⟩
  intro h
  simp only [select_best_regional_orders] at h ⊢
  split_ifs at h ⊢ with h1 h2 h3
  · exact absurd rfl h
  · exact absurd rfl h
  · exact absurd rfl h
  · exact le_of_not_lt h3

/-- Witness for C2: a concrete selection that passes the gate. -/
theorem select_profitability_gate_witness :
    (select_best_regional_orders optDefault [ordA]).selected ≠ [] ∧
    calculate_van_cost optDefault
        (calculate_human_route_miles (maxDistance [ordA])
          (select_best_regional_orders optDefault [ordA]).selected.length)
        ((select_best_regional_orders optDefault [ordA]).selected.any fun o =>
          is_london o.postcode) ≤
      sumCourier (select_best_regional_orders optDefault [ordA]).selected := by
  have hL : is_london ['N', 'N', '1', '4', ' ', '1', 'A', 'A'] = false := by decide
  have hsel : select_best_regional_orders optDefault [ordA] = ⟨[ordA], some 21.2⟩ := by
    norm_num [select_best_regional_orders, optDefault, NodalOptimizer.init,
      calculate_fuel_per_mile, sortByCourierDesc, insertDesc, greedyAdmit,
      maxDistance, calculate_human_route_miles, calculate_van_cost,
      sumCourier, hL, round2, ordA]
  have hne : (select_best_regional_orders optDefault [ordA]).selected ≠ [] := by
    rw [hsel]; simp
  exact ⟨hne, (select_profitability_gate optDefault [ordA]).1 hne⟩

/-- C3.  The cost model is the exact closed formula
`(fixed + miles * fuel_per_mile + surcharge) * safety_margin` with
`fixed = 140 + 15 + 10`, `fuel_per_mile = (price * 4.546) / 30` recomputed
from the current diesel price by `calculate_fuel_per_mile`, a flat 15
surcharge when the congestion flag is set, and margin `1.10 > 1`.  It is a
pure function of the optimizer state and its two arguments (as a Lean
function, side-effect-free and deterministic by construction). -/
theorem calculate_van_cost_formula (cm3 ckg price total_miles : ℚ) (flag : Bool) :
    calculate_van_cost
        (calculate_fuel_per_mile
          { NodalOptimizer.init cm3 ckg with current_diesel_price := price })
        total_miles flag =
      (140 + 15 + 10 + total_miles * (price * 4.546 / 30) +
          if flag then (15 : ℚ) else 0) * 1.10 ∧
    (1 : ℚ) < (NodalOptimizer.init cm3 ckg).SAFETY_MARGIN := by
  constructor
  · simp only [calculate_van_cost, calculate_fuel_per_mile, NodalOptimizer.init]
    cases flag <;> simp
  · norm_num [NodalOptimizer.init, calculate_fuel_per_mile]

/-- Counterexample for C4 as stated: with a candidate whose anchor distance
is 0.001, the stored `final_route_miles` is 1.2 — the code rounds
`anchor*2 + stops*1.2 = 1.202` to 2 decimal places — so it is **not** equal
to the exact formula value. -/
theorem select_route_miles_not_exact_cex :
    (select_best_regional_orders optDefault [ordTiny]).final_route_miles = some 1.2 ∧
    (select_best_regional_orders optDefault [ordTiny]).selected.length = 1 ∧
    maxDistance [ordTiny] = 0.001 ∧
    (1.2 : ℚ) ≠ maxDistance [ordTiny] * 2 + 1 * 1.2 := by
  have hL : is_london ['N', 'N', '1', '4', ' ', '1', 'A', 'A'] = false := by decide
  have hsel : select_best_regional_orders optDefault [ordTiny] = ⟨[ordTiny], some 1.2⟩ := by
    norm_num [select_best_regional_orders, optDefault, NodalOptimizer.init,
      calculate_fuel_per_mile, sortByCourierDesc, insertDesc, greedyAdmit,
      maxDistance, calculate_human_route_miles, calculate_van_cost,
      sumCourier, hL, round2, ordTiny]
  rw [hsel]
  refine ⟨rfl, rfl, by norm_num [maxDistance, ordTiny], ?_⟩
  norm_num [maxDistance, ordTiny]

/-- C4 (amended).  For every candidate list with a non-empty selection, the
stored `final_route_miles` equals `round2 (anchor * 2 + stops * 1.2)` —
the exact stem-plus-drop formula rounded to 2 decimal places — where the
anchor is `maxDistance` of the **original full candidate list** and the stop
count is the number of admitted rows.  (On anchors with at most 2 decimal
places, such as the spec's `anchor = 10, 1 stop ⇒ 21.2`, the rounding is
the identity and the exact formula holds.) -/
theorem select_route_miles_rounded (opt : NodalOptimizer) (df : List Order)
    (h : (select_best_regional_orders opt df).selected ≠ []) :
    (select_best_regional_orders opt df).final_route_miles =
      some (round2 (maxDistance df * 2 +
        ((select_best_regional_orders opt df).selected.length : ℚ) * 1.2)) := by
  simp only [select_best_regional_orders] at h ⊢
  split_ifs at h ⊢ with h1 h2 h3
  · exact absurd rfl h
  · exact absurd rfl h
  · exact absurd rfl h
  · simp [calculate_human_route_miles]

/-- Witness for C4 (amended) at the spec's own scenario:
anchor 10, one stop, `round2 21.2 = 21.2`. -/
theorem select_route_miles_rounded_witness :
    (select_best_regional_orders optDefault [ordA]).selected ≠ [] ∧
    (select_best_regional_orders optDefault [ordA]).final_route_miles =
      some (round2 (maxDistance [ordA] * 2 +
        ((select_best_regional_orders optDefault [ordA]).selected.length : ℚ) * 1.2)) := by
  have hL : is_london ['N', 'N', '1', '4', ' ', '1', 'A', 'A'] = false := by decide
  have hsel : select_best_regional_orders optDefault [ordA] = ⟨[ordA], some 21.2⟩ := by
    norm_num [select_best_regional_orders, optDefault, NodalOptimizer.init,
      calculate_fuel_per_mile, sortByCourierDesc, insertDesc, greedyAdmit,
      maxDistance, calculate_human_route_miles, calculate_van_cost,
      sumCourier, hL, round2, ordA]
  have hne : (select_best_regional_orders optDefault [ordA]).selected ≠ [] := by
    rw [hsel]; simp
  exact ⟨hne, select_route_miles_rounded optDefault [ordA] hne⟩

/-- Counterexample for C9 as stated: `__init__` performs no validation, so
a negative capacity configuration is accepted silently — construction
succeeds (all cost constants are set, `van_capacity_m3` becomes `-4`) and a
subsequent selection runs to a normal empty business-outcome result instead
of any construction-time failure. -/
theorem init_negative_capacity_cex :
    (NodalOptimizer.init (-5) (-5)).van_capacity_m3 = -4 ∧
    (NodalOptimizer.init (-5) (-5)).DRIVER_DAILY_RATE = 140 ∧
    select_best_regional_orders (NodalOptimizer.init (-5) (-5)) [ordA] = ⟨[], none⟩ := by
  refine ⟨by norm_num [NodalOptimizer.init, calculate_fuel_per_mile],
    by norm_num [NodalOptimizer.init, calculate_fuel_per_mile], ?_⟩
  norm_num [select_best_regional_orders, NodalOptimizer.init,
    calculate_fuel_per_mile, sortByCourierDesc, insertDesc, greedyAdmit,
    maxDistance, ordA]

/-- C9 (amended).  The core never raises for business-outcome conditions,
and a malformed negative-capacity configuration is **not** rejected at
construction: `__init__` accepts it, and any selection over orders with
non-negative volumes silently yields the empty/rejected result. -/
theorem select_negative_capacity_silent (cm3 ckg : ℚ) (df : List Order)
    (hneg : cm3 < 0) (hvol : ∀ o ∈ df, 0 ≤ o.volume_m3) :
    (NodalOptimizer.init cm3 ckg).van_capacity_m3 = cm3 * 0.80 ∧
    select_best_regional_orders (NodalOptimizer.init cm3 ckg) df = ⟨[], none⟩ := by
  have hcap : (NodalOptimizer.init cm3 ckg).van_capacity_m3 = cm3 * 0.80 := rfl
  refine ⟨hcap, ?_⟩
  have hneg8 : cm3 * 0.80 < 0 := mul_neg_of_neg_of_pos hneg (by norm_num)
  have hempty : ∀ (l : List Order), (∀ o ∈ l, 0 ≤ o.volume_m3) → ∀ ck : ℚ,
      greedyAdmit (NodalOptimizer.init cm3 ckg).van_capacity_m3
        (NodalOptimizer.init cm3 ckg).van_capacity_kg l 0 ck = [] := by
    intro l
    induction l with
    | nil => intro _ _; rfl
    | cons o rest ih =>
      intro hl ck
      have hno : ¬(0 + o.volume_m3 ≤ (NodalOptimizer.init cm3 ckg).van_capacity_m3 ∧
          ck + o.weight_kg ≤ (NodalOptimizer.init cm3 ckg).van_capacity_kg) := by
        rintro ⟨h1, -⟩
        have := hl o (List.mem_cons_self o rest)
        rw [hcap] at h1
        linarith
      rw [greedyAdmit, if_neg hno]
      exact ih (fun o ho => hl o (List.mem_cons_of_mem _ ho)) ck
  simp only [select_best_regional_orders]
  split
  · rfl
  · rw [hempty (sortByCourierDesc df)
      (fun o ho => hvol o ((sortByCourierDesc_perm df).subset ho)) 0]
    simp

/-- Witness for C9 (amended) at a concrete negative capacity. -/
theorem select_negative_capacity_silent_witness :
    ((-5 : ℚ) < 0 ∧ ∀ o ∈ [ordA], 0 ≤ o.volume_m3) ∧
    ((NodalOptimizer.init (-5) 1500).van_capacity_m3 = (-5) * 0.80 ∧
      select_best_regional_orders (NodalOptimizer.init (-5) 1500) [ordA] = ⟨[], none⟩) := by
  have h1 : (-5 : ℚ) < 0 := by norm_num
  have h2 : ∀ o ∈ [ordA], (0 : ℚ) ≤ o.volume_m3 := by
    intro o ho
    simp only [List.mem_singleton] at ho
    rw [ho]
    norm_num [ordA]
  exact ⟨⟨h1, h2⟩, select_negative_capacity_silent (-5) 1500 [ordA] h1 h2⟩

/-! ## Claim theorems: the route-data provider -/

theorem cacheLookup_head (k : Str) (v : RouteInfo) (c : List (Str × RouteInfo)) :
    cacheLookup k ((k, v) :: c) = some v := by
  simp [cacheLookup]

/-- A single `get_route_data` call leaves the limit unchanged and either
leaves the counter unchanged or, only while the counter is still below the
limit, increments it by exactly one. -/
theorem get_route_data_count_step (bk : Backend) (s : NodalRouter) (opc : Option Str) :
    (get_route_data bk s opc).2.MAX_DAILY_LIMIT = s.MAX_DAILY_LIMIT ∧
    ((get_route_data bk s opc).2.daily_request_count = s.daily_request_count ∨
      ((get_route_data bk s opc).2.daily_request_count = s.daily_request_count + 1 ∧
        s.daily_request_count < s.MAX_DAILY_LIMIT)) := by
  cases opc with
  | none => exact ⟨rfl, Or.inl rfl⟩
  | some dest =>
    simp only [get_route_data]
    split
    · exact ⟨rfl, Or.inl rfl⟩
    · split
      · exact ⟨rfl, Or.inl rfl⟩
      · split
        · exact ⟨rfl, Or.inl rfl⟩
        · rename_i hq
          split
          · exact ⟨rfl, Or.inr ⟨rfl, by omega⟩⟩
          · exact ⟨rfl, Or.inr ⟨rfl, by omega⟩⟩

/-- Along any call sequence the counter never passes
`max initial_count MAX_DAILY_LIMIT`, and the limit itself never changes. -/
theorem runCalls_le (bk : Backend) (calls : List (Option Str)) :
    ∀ r : NodalRouter,
      (runCalls bk r calls).daily_request_count ≤
        max r.daily_request_count r.MAX_DAILY_LIMIT ∧
      (runCalls bk r calls).MAX_DAILY_LIMIT = r.MAX_DAILY_LIMIT := by
  induction calls with
  | nil => intro r; exact ⟨le_max_left _ _, rfl⟩
  | cons c rest ih =>
    intro r
    have hstep := get_route_data_count_step bk r c
    have hr := ih (get_route_data bk r c).2
    have hruns : runCalls bk r (c :: rest) = runCalls bk (get_route_data bk r c).2 rest := rfl
    rw [hruns]
    have hb := hr.1
    rw [hstep.1] at hb
    refine ⟨?_, by rw [hr.2, hstep.1]⟩
    rcases hstep.2 with h | ⟨h, hlt⟩ <;> rw [h] at hb <;> omega

/-- C6.  Quota safety: over any sequence of `get_route_data` calls the
number of counter increments — hence of backend calls, since the counter
moves exactly once per backend attempt — is at most
`MAX_DAILY_LIMIT - already_consumed`; and once the counter has reached the
limit, a call for a never-seen postcode returns `none` with the state
(counter and cache) untouched and independent of the backend, while a
previously cached postcode still returns its cached value. -/
theorem router_quota_bound (bk : Backend) (r : NodalRouter)
    (calls : List (Option Str)) (pc : Str) :
    ((runCalls bk r calls).daily_request_count - r.daily_request_count ≤
      r.MAX_DAILY_LIMIT - r.daily_request_count) ∧
    (r.MAX_DAILY_LIMIT ≤ r.daily_request_count → pc ≠ [] →
      (cacheLookup (normalizePostcode pc) r.route_cache = none →
        get_route_data bk r (some pc) = (none, r)) ∧
      ∀ v, cacheLookup (normalizePostcode pc) r.route_cache = some v →
        get_route_data bk r (some pc) = (some v, r)) := by
  constructor
  · have h := (runCalls_le bk calls r).1
    omega
  · intro hq hpc
    constructor
    · intro hmiss
      simp only [get_route_data, if_neg hpc, hmiss]
      rw [if_pos hq]
    · intro v hhit
      simp only [get_route_data, if_neg hpc, hhit]

/-- Witness for C6: an exhausted router (counter 2 of limit 2) ignores a
never-seen postcode without state change, still serves the cached one, and
a further call sequence performs `≤ 2 - 2 = 0` backend calls. -/
theorem router_quota_bound_witness :
    ((runCalls bkNone routerFull [some ['Z', 'Z']]).daily_request_count -
        routerFull.daily_request_count ≤
      routerFull.MAX_DAILY_LIMIT - routerFull.daily_request_count) ∧
    get_route_data bkNone routerFull (some ['Z', 'Z']) = (none, routerFull) ∧
    get_route_data bkNone routerFull (some ['a', 'b']) = (some infoA, routerFull) := by
  have T := router_quota_bound bkNone routerFull [some ['Z', 'Z']] ['Z', 'Z']
  have T2 := router_quota_bound bkNone routerFull [] ['a', 'b']
  exact ⟨T.1, (T.2 (by decide) (by decide)).1 (by decide),
    (T2.2 (by decide) (by decide)).2 infoA rfl⟩

/-- C7.  Idempotence on success: if a `get_route_data` call answers a
postcode with a route record, repeating the call in the resulting state
returns the identical record with the state unchanged, and across the two
calls the quota counter has grown by at most one (the first call either hit
the cache or cached its fresh result; the second is a pure cache hit). -/
theorem get_route_data_idempotent (bk : Backend) (r : NodalRouter) (pc : Str)
    (v : RouteInfo) (r2 : NodalRouter)
    (h : get_route_data bk r (some pc) = (some v, r2)) :
    get_route_data bk r2 (some pc) = (some v, r2) ∧
    r2.daily_request_count ≤ r.daily_request_count + 1 := by
  simp only [get_route_data] at h
  by_cases hpc : pc = []
  · rw [if_pos hpc] at h
    exact absurd (congrArg Prod.fst h) (by simp)
  · rw [if_neg hpc] at h
    rcases hc : cacheLookup (normalizePostcode pc) r.route_cache with _ | cached
    · simp only [hc] at h
      by_cases hq : r.MAX_DAILY_LIMIT ≤ r.daily_request_count
      · rw [if_pos hq] at h
        exact absurd (congrArg Prod.fst h) (by simp)
      · rw [if_neg hq] at h
        rcases hb : bk (normalizePostcode pc) with _ | e
        · simp only [hb] at h
          exact absurd (congrArg Prod.fst h) (by simp)
        · simp only [hb, Prod.mk.injEq, Option.some.injEq] at h
          obtain ⟨hv, hr2⟩ := h
          subst hv
          subst hr2
          refine ⟨?_, Nat.le_refl _⟩
          simp only [get_route_data, if_neg hpc, cacheLookup_head]
    · simp only [hc, Prod.mk.injEq, Option.some.injEq] at h
      obtain ⟨hv, hr2⟩ := h
      subst hv
      subst hr2
      refine ⟨?_, Nat.le_succ _⟩
      simp only [get_route_data, if_neg hpc, hc]

/-- Witness for C7: a fresh router resolves `'ab1 2cd '` through the
backend, and the repeated call is answered identically from the cache. -/
theorem get_route_data_idempotent_witness :
    get_route_data bkA routerAfterA (some ['a', 'b', '1', ' ', '2', 'c', 'd', ' ']) =
      (some infoA, routerAfterA) ∧
    routerAfterA.daily_request_count ≤ NodalRouter.init.daily_request_count + 1 := by
  have hk : normalizePostcode ['a', 'b', '1', ' ', '2', 'c', 'd', ' '] =
      ['A', 'B', '1', ' ', '2', 'C', 'D'] := by decide
  have h : get_route_data bkA NodalRouter.init
      (some ['a', 'b', '1', ' ', '2', 'c', 'd', ' ']) = (some infoA, routerAfterA) := by
    norm_num [get_route_data, NodalRouter.init, routerAfterA, bkA, hk, infoA,
      cacheLookup, round2]
    all_goals decide
  exact get_route_data_idempotent bkA NodalRouter.init _ infoA routerAfterA h

/-- C8.  Failed lookups never write to the cache: an uncached postcode whose
backend attempt errors (or returns a malformed/non-`OK` response) yields
`none` and the only state change is the counter increment; and in general
any call whose result is `none` leaves the route cache exactly as it was,
so the cache gains entries only on success. -/
theorem get_route_data_failure_no_cache (bk : Backend) (r : NodalRouter) (pc : Str)
    (hpc : pc ≠ [])
    (hmiss : cacheLookup (normalizePostcode pc) r.route_cache = none)
    (hquota : r.daily_request_count < r.MAX_DAILY_LIMIT)
    (hbk : bk (normalizePostcode pc) = none) :
    get_route_data bk r (some pc) =
      (none, { r with daily_request_count := r.daily_request_count + 1 }) ∧
    ∀ opc : Option Str, (get_route_data bk r opc).1 = none →
      ((get_route_data bk r opc).2).route_cache = r.route_cache := by
  constructor
  · simp only [get_route_data, if_neg hpc, hmiss, hbk]
    rw [if_neg (by omega : ¬ r.MAX_DAILY_LIMIT ≤ r.daily_request_count)]
  · intro opc h1
    cases opc with
    | none => rfl
    | some dest =>
      simp only [get_route_data] at h1 ⊢
      by_cases hd : dest = []
      · rw [if_pos hd]
      · rw [if_neg hd] at h1 ⊢
        rcases hc : cacheLookup (normalizePostcode dest) r.route_cache with _ | cached
        · simp only [hc] at h1 ⊢
          by_cases hq : r.MAX_DAILY_LIMIT ≤ r.daily_request_count
          · rw [if_pos hq]
          · rw [if_neg hq] at h1 ⊢
            rcases hb : bk (normalizePostcode dest) with _ | e
            · simp only [hb]
            · simp only [hb] at h1
              exact absurd h1 (by simp)
        · simp only [hc]

/-- Witness for C8: a fresh router, a never-seen postcode and an
always-failing backend. -/
theorem get_route_data_failure_no_cache_witness :
    ((['Z'] : Str) ≠ [] ∧
      cacheLookup (normalizePostcode ['Z']) NodalRouter.init.route_cache = none ∧
      NodalRouter.init.daily_request_count < NodalRouter.init.MAX_DAILY_LIMIT ∧
      bkNone (normalizePostcode ['Z']) = none) ∧
    get_route_data bkNone NodalRouter.init (some ['Z']) =
      (none, { NodalRouter.init with
        daily_request_count := NodalRouter.init.daily_request_count + 1 }) := by
  exact ⟨⟨by decide, by decide, by decide, rfl⟩,
    (get_route_data_failure_no_cache bkNone NodalRouter.init ['Z']
      (by decide) (by decide) (by decide) rfl).1⟩

/-- C10.  A missing (`None`) or empty-string destination postcode is
answered `none` immediately: no backend contact, no counter increment, no
cache change — the state is returned untouched. -/
theorem get_route_data_empty_postcode (bk : Backend) (r : NodalRouter) :
    get_route_data bk r none = (none, r) ∧
    get_route_data bk r (some []) = (none, r) := by
  exact ⟨rfl, by simp [get_route_data]⟩

end Nodal
